import Mathlib

/-!
Shallow embedding of `src/parser.py` from the header-parser repository.

The core under verification is `extract_defs(header_path, tu)` together with
the section assembly inside `process_header`.  The external clang translation
unit is modelled by its observable shape: a list of top-level nodes, each
carrying the attributes the code reads (`kind`, `spelling`, `location.file`,
`result_type.spelling`, `underlying_typedef_type.spelling`, token spellings,
argument nodes and child nodes).  Path canonicalization (`os.path.abspath`)
is modelled by an arbitrary function parameter `ap : String → String`.
-/

namespace HeaderParser

/-- Cursor kinds read by the code; every kind the dispatch does not handle is
collapsed into the constructors below that the code can still meet
(enum constants, fields, parameters) plus `OTHER`. -/
inductive CursorKind where
  | TYPEDEF_DECL
  | FUNCTION_DECL
  | STRUCT_DECL
  | ENUM_DECL
  | ENUM_CONSTANT_DECL
  | FIELD_DECL
  | PARM_DECL
  | MACRO_DEFINITION
  | OTHER
deriving DecidableEq, Repr

/-- Child cursor of a top-level node (struct field, enum constant, or function
parameter).  The code reads only `kind`, `spelling`, `type.spelling` and
`enum_value` on such cursors. -/
structure ChildNode where
  kind : CursorKind
  spelling : String
  typeSpelling : String
  enumValue : Option Int
deriving DecidableEq, Repr

/-- Top-level cursor: a child of `tu.cursor`.  `locationFile` is
`node.location.file` (`none` for built-ins), the strings are the spellings the
code reads, `tokens` is the list of token spellings of `node.get_tokens()`,
`arguments` is `node.get_arguments()` and `children` is `node.get_children()`. -/
structure Node where
  kind : CursorKind
  spelling : String
  locationFile : Option String
  resultTypeSpelling : String
  underlyingTypedefTypeSpelling : String
  tokens : List String
  arguments : List ChildNode
  children : List ChildNode
deriving DecidableEq, Repr

/-- Python `s.startswith(p)`: `p` is a prefix of `s`, on the character level. -/
def pyStartsWith (s p : String) : Bool :=
  p.data.isPrefixOf s.data

/-- Python `s or 'none'`: the fallback fires exactly when `s` is empty. -/
def orNone (s : String) : String :=
  if s = ("") then ("none") else s

/-- Python `str.rstrip(chars)` on the character-list level: remove the longest
trailing run of characters belonging to `cs`. -/
def rstripData (l : List Char) (cs : List Char) : List Char :=
  (l.reverse.dropWhile (fun c => cs.contains c)).reverse

/-- Python `s.rstrip(chars)`. -/
def pyRstrip (s : String) (cs : List Char) : String :=
  String.mk (rstripData s.data cs)

/-- Python `s.strip()`: remove leading and trailing whitespace. -/
def pyStrip (s : String) : String :=
  String.mk (((s.data.dropWhile Char.isWhitespace).reverse.dropWhile
    Char.isWhitespace).reverse)

/-- Origin filter of `extract_defs` (parser.py line 53): skip when the node
has a file and its canonical path differs from the target's canonical path. -/
def fileSkip (ap : String → String) (header_path : String) (n : Node) : Bool :=
  match n.locationFile with
  | none => false
  | some f => !(ap f == ap header_path)

/-- TYPEDEF_DECL branch (parser.py lines 56-61). -/
def typedefDef (n : Node) : List String :=
  let typedef_name := n.spelling
  let typedef_type := orNone n.underlyingTypedefTypeSpelling
  if !(pyStartsWith typedef_name ("_")) && !(pyStartsWith typedef_type ("struct ")) then
    [("typedef ") ++ typedef_type ++ (" ") ++ typedef_name ++ (";")]
  else []

/-- Parameter rendering inside the FUNCTION_DECL branch (parser.py lines 70-73). -/
def paramStr (p : ChildNode) : String :=
  orNone p.typeSpelling ++ (" ") ++ orNone p.spelling

/-- FUNCTION_DECL branch (parser.py lines 63-75). -/
def functionDef (n : Node) : List String :=
  let func_name := n.spelling
  if !(pyStartsWith func_name ("_")) then
    let ret_type := orNone n.resultTypeSpelling
    let params := n.arguments.map paramStr
    [ret_type ++ (" ") ++ func_name ++ ("(") ++ String.intercalate (", ") params ++ (");")]
  else []

/-- Field rendering inside the STRUCT_DECL branch (parser.py lines 84-87). -/
def fieldLine (c : ChildNode) : String :=
  ("    ") ++ orNone c.typeSpelling ++ (" ") ++ orNone c.spelling ++ (";\n")

/-- STRUCT_DECL branch (parser.py lines 77-90): only children of kind
FIELD_DECL contribute a line; no name-based filtering of fields. -/
def structDef (n : Node) : List String :=
  let struct_name := n.spelling
  if !(pyStartsWith struct_name ("_")) then
    let body := String.join
      ((n.children.filter (fun c => c.kind == CursorKind.FIELD_DECL)).map fieldLine)
    [("struct ") ++ struct_name ++ (" \x7b\n") ++ body ++ ("\x7d;")]
  else []

/-- Enum-constant rendering inside the ENUM_DECL branch (parser.py
lines 100-106): the value is printed exactly when the parser supplies one. -/
def enumLine (c : ChildNode) : String :=
  match c.enumValue with
  | some v => ("    ") ++ c.spelling ++ (" = ") ++ toString v ++ (",\n")
  | none => ("    ") ++ c.spelling ++ (",\n")

/-- ENUM_DECL branch (parser.py lines 92-109): accumulate one line per
ENUM_CONSTANT_DECL child, then `rstrip(',\n')` and close with `};`. -/
def enumDef (n : Node) : List String :=
  let enum_name := n.spelling
  if !(pyStartsWith enum_name ("_")) then
    let body := String.join
      ((n.children.filter (fun c => c.kind == CursorKind.ENUM_CONSTANT_DECL)).map enumLine)
    [pyRstrip (enum_name ++ (" \x7b\n") ++ body) [',', '\n'] ++ ("\n\x7d;")]
  else []

/-- Macro value (parser.py line 117): spellings of all tokens after the first,
joined by single spaces; empty when there is at most one token. -/
def macroValue (tokens : List String) : String :=
  if tokens.length > 1 then String.intercalate (" ") (tokens.drop 1) else ("")

/-- MACRO_DEFINITION branch (parser.py lines 111-118): the name is the node's
spelling; the whole formatted string is `strip()`-ped. -/
def macroDef (n : Node) : List String :=
  let macro_name := n.spelling
  if !(pyStartsWith macro_name ("_")) then
    [pyStrip (("#define ") ++ macro_name ++ (" ") ++ macroValue n.tokens)]
  else []

/-- The five result sequences of `extract_defs`. -/
structure ExtractOutput where
  typedefs : List String
  functions : List String
  structs : List String
  enums : List String
  macros : List String
deriving DecidableEq, Repr

/-- Output with all five sequences empty. -/
def ExtractOutput.empty : ExtractOutput :=
  ⟨[], [], [], [], []⟩

/-- Componentwise concatenation of two outputs. -/
def ExtractOutput.append (a b : ExtractOutput) : ExtractOutput :=
  ⟨a.typedefs ++ b.typedefs, a.functions ++ b.functions, a.structs ++ b.structs,
   a.enums ++ b.enums, a.macros ++ b.macros⟩

/-- Contribution of a single top-level node: the origin filter followed by the
kind dispatch of the loop body of `extract_defs` (parser.py lines 50-118). -/
def nodeContrib (ap : String → String) (header_path : String) (n : Node) :
    ExtractOutput :=
  if fileSkip ap header_path n then ExtractOutput.empty
  else
    match n.kind with
    | CursorKind.TYPEDEF_DECL => ⟨typedefDef n, [], [], [], []⟩
    | CursorKind.FUNCTION_DECL => ⟨[], functionDef n, [], [], []⟩
    | CursorKind.STRUCT_DECL => ⟨[], [], structDef n, [], []⟩
    | CursorKind.ENUM_DECL => ⟨[], [], [], enumDef n, []⟩
    | CursorKind.MACRO_DEFINITION => ⟨[], [], [], [], macroDef n⟩
    | _ => ExtractOutput.empty

/-- The loop of `extract_defs` (parser.py lines 43-120) over the top-level
nodes `tu.cursor.get_children()`, appending each node's contribution in order. -/
def extract_defs (ap : String → String) (header_path : String) :
    List Node → ExtractOutput
  | [] => ExtractOutput.empty
  | n :: ns => (nodeContrib ap header_path n).append (extract_defs ap header_path ns)

/-- The `sections` list of `process_header` (parser.py lines 130-136). -/
def sectionList (o : ExtractOutput) : List (String × List String) :=
  [(("Typedefs"), o.typedefs), (("Functions"), o.functions),
   (("Structs"), o.structs), (("Enums"), o.enums), (("Macros"), o.macros)]

/-- Assembly loop of `process_header` (parser.py lines 137-144): each section
contributes a header line, its items, and a delimiter; the lines are joined
with newlines. -/
def renderOutput (o : ExtractOutput) : String :=
  String.intercalate ("\n")
    (List.flatten ((sectionList o).map
      (fun ti => (ti.1 ++ (":\n---")) :: ti.2 ++ [("---\n")])))

/-- Enum entry without its trailing comma and newline: the part of `enumLine`
that survives the final `rstrip(',\n')` when the entry is last. -/
def enumCore (c : ChildNode) : String :=
  match c.enumValue with
  | some v => ("    ") ++ c.spelling ++ (" = ") ++ toString v
  | none => ("    ") ++ c.spelling

/- Concrete sample nodes used to instantiate the theorems. -/

/-- Typedef node for `typedef unsigned long size_t;`, located in the target
header itself. -/
def sizeTypedef : Node :=
  ⟨CursorKind.TYPEDEF_DECL, "size_t", some "h", "", "unsigned long", [], [], []⟩

/-- Typedef node whose underlying type spelling begins with `struct `. -/
def anonTypedef : Node :=
  ⟨CursorKind.TYPEDEF_DECL, "Anon", none, "", "struct Anonymous", [], [], []⟩

/-- Function node for `int add(int a, int b)`. -/
def addFunction : Node :=
  ⟨CursorKind.FUNCTION_DECL, "add", none, "int", "",
   [], [⟨CursorKind.PARM_DECL, "a", "int", none⟩, ⟨CursorKind.PARM_DECL, "b", "int", none⟩], []⟩

/-- Function node with an empty parameter list. -/
def resetFunction : Node :=
  ⟨CursorKind.FUNCTION_DECL, "reset", none, "void", "", [], [], []⟩

/-- Struct node with a regular field and an underscore-named field. -/
def pointStruct : Node :=
  ⟨CursorKind.STRUCT_DECL, "Point", none, "", "",
   [], [], [⟨CursorKind.FIELD_DECL, "x", "int", none⟩,
            ⟨CursorKind.FIELD_DECL, "_y", "int", none⟩]⟩

/-- Enum constant `RED = 5`. -/
def redConstant : ChildNode :=
  ⟨CursorKind.ENUM_CONSTANT_DECL, "RED", "", some 5⟩

/-- Enum constant `GREEN` with no parser-supplied value. -/
def greenConstant : ChildNode :=
  ⟨CursorKind.ENUM_CONSTANT_DECL, "GREEN", "", none⟩

/-- Enum node with a valued constant followed by an unvalued one. -/
def colorEnum : Node :=
  ⟨CursorKind.ENUM_DECL, "Color", none, "", "", [], [], [redConstant, greenConstant]⟩

/-- Macro node for `#define MAX 100`. -/
def maxMacroNode : Node :=
  ⟨CursorKind.MACRO_DEFINITION, "MAX", none, "", "", ["MAX", "100"], [], []⟩

/-- Macro node for `#define FLAG` (a single token). -/
def flagMacroNode : Node :=
  ⟨CursorKind.MACRO_DEFINITION, "FLAG", none, "", "", ["FLAG"], [], []⟩

/-- Macro node whose cursor spelling differs from its first token's spelling. -/
def macroMismatch : Node :=
  ⟨CursorKind.MACRO_DEFINITION, "A", none, "", "", ["B", "1"], [], []⟩

/-- Typedef node whose primary name is the empty string. -/
def emptyNameTypedef : Node :=
  ⟨CursorKind.TYPEDEF_DECL, "", none, "", "int", [], [], []⟩

/-- Typedef node with an underscore-prefixed name. -/
def privateTypedef : Node :=
  ⟨CursorKind.TYPEDEF_DECL, "_priv", none, "", "int", [], [], []⟩

/-- Function node originating from a different file than the target header. -/
def otherHeaderNode : Node :=
  ⟨CursorKind.FUNCTION_DECL, "foo", some "g", "int", "", [], [], []⟩

/-- Function node with no originating file (compiler built-in). -/
def builtinNode : Node :=
  ⟨CursorKind.FUNCTION_DECL, "bar", none, "int", "", [], [], []⟩

/-- Top-level node of a kind the dispatch does not handle. -/
def unionNode : Node :=
  ⟨CursorKind.OTHER, "U", none, "", "", [], [], []⟩

/- Helper lemmas. -/

theorem string_ext {s t : String} (h : s.data = t.data) : s = t := by
  cases s
  cases t
  exact congrArg String.mk h

theorem mk_append (a b : List Char) : (String.mk a) ++ (String.mk b) = String.mk (a ++ b) :=
  rfl

theorem join_append (a b : List String) :
    String.join (a ++ b) = String.join a ++ String.join b := by
  simp [String.join_eq, mk_append]

theorem enumLine_eq_core (c : ChildNode) : enumLine c = enumCore c ++ (",\n") := by
  cases h : c.enumValue <;> simp [enumLine, enumCore, h, String.append_assoc]

theorem rstripData_comma_nl (l : List Char) (ch : Char) (rest : List Char)
    (hr : l.reverse = ch :: rest) (h1 : ch ≠ ',') (h2 : ch ≠ '\n') :
    rstripData (l ++ [',', '\n']) [',', '\n'] = l := by
  have hs : l = rest.reverse ++ [ch] := by
    have h' := congrArg List.reverse hr
    simpa using h'
  unfold rstripData
  rw [List.reverse_append]
  simp only [List.reverse_cons, List.reverse_nil, List.nil_append, List.cons_append,
    List.dropWhile_cons]
  simp [hr, h1, h2, hs]

theorem pyRstrip_comma_nl (s : String) (ch : Char) (rest : List Char)
    (hr : s.data.reverse = ch :: rest) (h1 : ch ≠ ',') (h2 : ch ≠ '\n') :
    pyRstrip (s ++ (",\n")) [',', '\n'] = s := by
  apply string_ext
  show rstripData (s ++ (",\n")).data [',', '\n'] = s.data
  rw [String.data_append]
  exact rstripData_comma_nl s.data ch rest hr h1 h2

theorem output_ext (o : ExtractOutput) :
    o = ⟨o.typedefs, o.functions, o.structs, o.enums, o.macros⟩ := by
  cases o
  rfl

theorem empty_append (o : ExtractOutput) : ExtractOutput.empty.append o = o := by
  cases o
  simp [ExtractOutput.empty, ExtractOutput.append]

theorem append_empty (o : ExtractOutput) : o.append ExtractOutput.empty = o := by
  cases o
  simp [ExtractOutput.empty, ExtractOutput.append]

theorem append_assoc_output (a b c : ExtractOutput) :
    (a.append b).append c = a.append (b.append c) := by
  cases a
  cases b
  cases c
  simp [ExtractOutput.append]

theorem extract_defs_cons (ap : String → String) (hp : String) (n : Node) (ns : List Node) :
    extract_defs ap hp (n :: ns) = (nodeContrib ap hp n).append (extract_defs ap hp ns) :=
  rfl

theorem extract_defs_append (ap : String → String) (hp : String) (xs ys : List Node) :
    extract_defs ap hp (xs ++ ys) =
      (extract_defs ap hp xs).append (extract_defs ap hp ys) := by
  induction xs with
  | nil => simp [extract_defs, empty_append]
  | cons x xs ih => simp [extract_defs_cons, ih, append_assoc_output]

theorem extract_defs_single (ap : String → String) (hp : String) (n : Node) :
    extract_defs ap hp [n] = nodeContrib ap hp n := by
  rw [extract_defs_cons]
  exact append_empty _

theorem extract_defs_erase (ap : String → String) (hp : String) (n : Node)
    (pre suf : List Node) (h : nodeContrib ap hp n = ExtractOutput.empty) :
    extract_defs ap hp (pre ++ n :: suf) = extract_defs ap hp (pre ++ suf) := by
  rw [extract_defs_append, extract_defs_append, extract_defs_cons, h, empty_append]

theorem fileSkip_none {ap : String → String} {hp : String} {n : Node}
    (h : n.locationFile = none) : fileSkip ap hp n = false := by
  unfold fileSkip
  rw [h]

theorem fileSkip_some {ap : String → String} {hp : String} {n : Node} {f : String}
    (h : n.locationFile = some f) (hne : ap f ≠ ap hp) : fileSkip ap hp n = true := by
  unfold fileSkip
  rw [h]
  simp [hne]

theorem nodeContrib_kind {ap : String → String} {hp : String} {n : Node}
    (h : fileSkip ap hp n = false) :
    nodeContrib ap hp n =
      match n.kind with
      | CursorKind.TYPEDEF_DECL => ⟨typedefDef n, [], [], [], []⟩
      | CursorKind.FUNCTION_DECL => ⟨[], functionDef n, [], [], []⟩
      | CursorKind.STRUCT_DECL => ⟨[], [], structDef n, [], []⟩
      | CursorKind.ENUM_DECL => ⟨[], [], [], enumDef n, []⟩
      | CursorKind.MACRO_DEFINITION => ⟨[], [], [], [], macroDef n⟩
      | _ => ExtractOutput.empty := by
  unfold nodeContrib
  rw [h]
  simp

/-- Claim C3: a top-level node whose originating file is present and whose
canonicalized path differs from the canonicalization of the target path
contributes no entry to any of the five output sequences (removing it does not
change the output); a node with no originating file is never excluded by this
rule (its contribution does not depend on the path arguments at all). -/
theorem file_filter_excludes :
    (∀ (ap : String → String) (hp : String) (n : Node) (f : String) (pre suf : List Node),
        n.locationFile = some f → ap f ≠ ap hp →
        extract_defs ap hp (pre ++ n :: suf) = extract_defs ap hp (pre ++ suf))
    ∧ (∀ (ap ap2 : String → String) (hp hp2 : String) (n : Node),
        n.locationFile = none →
        extract_defs ap hp [n] = extract_defs ap2 hp2 [n]) := by
  constructor
  · intro ap hp n f pre suf hf hne
    apply extract_defs_erase
    unfold nodeContrib
    rw [fileSkip_some hf hne]
    simp
  · intro ap ap2 hp hp2 n hf
    rw [extract_defs_single, extract_defs_single,
      nodeContrib_kind (fileSkip_none hf), nodeContrib_kind (fileSkip_none hf)]

/-- Witness for C3 at concrete inputs: a node from file `g` is dropped when the
target is `h`, and a file-less node contributes identically for two different
path arguments. -/
theorem file_filter_excludes_witness :
    extract_defs id ("h") ([] ++ otherHeaderNode :: []) = extract_defs id ("h") ([] ++ [])
    ∧ extract_defs id ("h") [builtinNode] = extract_defs id ("g") [builtinNode] :=
  ⟨file_filter_excludes.1 id ("h") otherHeaderNode ("g") [] [] rfl (by decide),
   file_filter_excludes.2 id id ("h") ("g") builtinNode rfl⟩

/-- Claim C4: a top-level node whose primary name starts with `_` contributes
no entry to any output sequence (removing it does not change the output, for
every kind); struct fields and enum constants inside an emitted struct or enum
are never dropped by the leading-underscore rule: every FIELD child's line is
in the line list the emitted struct string is built from, and likewise for
every ENUM_CONSTANT child of an enum. -/
theorem underscore_filter :
    (∀ (ap : String → String) (hp : String) (n : Node) (pre suf : List Node),
        pyStartsWith n.spelling ("_") = true →
        extract_defs ap hp (pre ++ n :: suf) = extract_defs ap hp (pre ++ suf))
    ∧ (∀ (n : Node) (c : ChildNode),
        pyStartsWith n.spelling ("_") = false → c ∈ n.children →
        c.kind = CursorKind.FIELD_DECL →
        fieldLine c ∈
          (n.children.filter (fun d => d.kind == CursorKind.FIELD_DECL)).map fieldLine
        ∧ structDef n =
            [("struct ") ++ n.spelling ++ (" \x7b\n")
              ++ String.join ((n.children.filter
                  (fun d => d.kind == CursorKind.FIELD_DECL)).map fieldLine)
              ++ ("\x7d;")])
    ∧ (∀ (n : Node) (c : ChildNode),
        pyStartsWith n.spelling ("_") = false → c ∈ n.children →
        c.kind = CursorKind.ENUM_CONSTANT_DECL →
        enumLine c ∈
          (n.children.filter
            (fun d => d.kind == CursorKind.ENUM_CONSTANT_DECL)).map enumLine) := by
  refine ⟨?_, ?_, ?_⟩
  · intro ap hp n pre suf h
    apply extract_defs_erase
    unfold nodeContrib
    split
    · rfl
    · cases hk : n.kind <;>
        simp [hk, typedefDef, functionDef, structDef, enumDef, macroDef, h,
          ExtractOutput.empty]
  · intro n c h hc hk
    constructor
    · exact List.mem_map_of_mem _ (List.mem_filter.2 ⟨hc, by simp [hk]⟩)
    · simp [structDef, h]
  · intro n c h hc hk
    exact List.mem_map_of_mem _ (List.mem_filter.2 ⟨hc, by simp [hk]⟩)

/-- Witness for C4 at concrete inputs: the underscore-named typedef is dropped,
while the underscore-named field of `pointStruct` still has its line in the
emitted struct body. -/
theorem underscore_filter_witness :
    extract_defs id ("h") ([] ++ privateTypedef :: []) = extract_defs id ("h") ([] ++ [])
    ∧ (fieldLine ⟨CursorKind.FIELD_DECL, "_y", "int", none⟩ ∈
        (pointStruct.children.filter
          (fun d => d.kind == CursorKind.FIELD_DECL)).map fieldLine
       ∧ structDef pointStruct =
          [("struct ") ++ pointStruct.spelling ++ (" \x7b\n")
            ++ String.join ((pointStruct.children.filter
                (fun d => d.kind == CursorKind.FIELD_DECL)).map fieldLine)
            ++ ("\x7d;")])
    ∧ enumLine greenConstant ∈
        (colorEnum.children.filter
          (fun d => d.kind == CursorKind.ENUM_CONSTANT_DECL)).map enumLine :=
  ⟨underscore_filter.1 id ("h") privateTypedef [] [] (by decide),
   underscore_filter.2.1 pointStruct ⟨CursorKind.FIELD_DECL, "_y", "int", none⟩
     (by decide) (by decide) rfl,
   underscore_filter.2.2 colorEnum greenConstant (by decide) (by decide) rfl⟩

theorem orNone_struct (s : String) :
    pyStartsWith (orNone s) ("struct ") = pyStartsWith s ("struct ") := by
  by_cases h : s = ("")
  · subst h
    decide
  · simp [orNone, h]

theorem typedef_contrib {ap : String → String} {hp : String} {n : Node}
    (hk : n.kind = CursorKind.TYPEDEF_DECL) (hs : fileSkip ap hp n = false)
    (hn : pyStartsWith n.spelling ("_") = false)
    (ht : pyStartsWith n.underlyingTypedefTypeSpelling ("struct ") = false) :
    extract_defs ap hp [n] =
      ⟨[("typedef ") ++ orNone n.underlyingTypedefTypeSpelling ++ (" ")
          ++ n.spelling ++ (";")], [], [], [], []⟩ := by
  rw [extract_defs_single, nodeContrib_kind hs, hk]
  have ht' : pyStartsWith (orNone n.underlyingTypedefTypeSpelling) ("struct ") = false := by
    rw [orNone_struct]
    exact ht
  simp [typedefDef, hn, ht']

/-- Claim C6: a non-skipped TYPEDEF node is excluded entirely when its
underlying type spelling begins with `struct `; otherwise it emits
`typedef <underlying> <name>;` with the literal `none` substituted for an
empty underlying-type spelling. -/
theorem typedef_format :
    ∀ (ap : String → String) (hp : String) (n : Node),
      n.kind = CursorKind.TYPEDEF_DECL → fileSkip ap hp n = false →
      pyStartsWith n.spelling ("_") = false →
      (pyStartsWith n.underlyingTypedefTypeSpelling ("struct ") = true →
        extract_defs ap hp [n] = ExtractOutput.empty)
      ∧ (pyStartsWith n.underlyingTypedefTypeSpelling ("struct ") = false →
        extract_defs ap hp [n] =
          ⟨[("typedef ") ++ orNone n.underlyingTypedefTypeSpelling ++ (" ")
              ++ n.spelling ++ (";")], [], [], [], []⟩) := by
  intro ap hp n hk hs hn
  constructor
  · intro ht
    rw [extract_defs_single, nodeContrib_kind hs, hk]
    have ht' : pyStartsWith (orNone n.underlyingTypedefTypeSpelling) ("struct ") = true := by
      rw [orNone_struct]
      exact ht
    simp [typedefDef, hn, ht', ExtractOutput.empty]
  · exact typedef_contrib hk hs hn

/-- Witness for C6 at concrete inputs: the `struct Anonymous`-backed typedef is
excluded; the `size_t` typedef is emitted as `typedef unsigned long size_t;`. -/
theorem typedef_format_witness :
    extract_defs id ("h") [anonTypedef] = ExtractOutput.empty
    ∧ extract_defs id ("h") [sizeTypedef] =
        ⟨[("typedef ") ++ orNone sizeTypedef.underlyingTypedefTypeSpelling ++ (" ")
            ++ sizeTypedef.spelling ++ (";")], [], [], [], []⟩ :=
  ⟨(typedef_format id ("h") anonTypedef rfl rfl (by decide)).1 (by decide),
   (typedef_format id ("h") sizeTypedef rfl (by decide) (by decide)).2 (by decide)⟩

/-- Claim C7: a non-skipped FUNCTION node emits
`<return_type> <name>(<type1> <name1>, ...);` with parameters in declaration
order and the literal `none` substituted for empty spellings; an empty
parameter list yields `()`. -/
theorem function_format :
    ∀ (ap : String → String) (hp : String) (n : Node),
      n.kind = CursorKind.FUNCTION_DECL → fileSkip ap hp n = false →
      pyStartsWith n.spelling ("_") = false →
      extract_defs ap hp [n] =
        ⟨[], [orNone n.resultTypeSpelling ++ (" ") ++ n.spelling ++ ("(")
              ++ String.intercalate (", ")
                  (n.arguments.map
                    (fun p => orNone p.typeSpelling ++ (" ") ++ orNone p.spelling))
              ++ (");")], [], [], []⟩
      ∧ (n.arguments = [] →
          (extract_defs ap hp [n]).functions
            = [orNone n.resultTypeSpelling ++ (" ") ++ n.spelling ++ ("();")]) := by
  intro ap hp n hk hs hn
  have hmain : extract_defs ap hp [n] =
      ⟨[], [orNone n.resultTypeSpelling ++ (" ") ++ n.spelling ++ ("(")
            ++ String.intercalate (", ")
                (n.arguments.map
                  (fun p => orNone p.typeSpelling ++ (" ") ++ orNone p.spelling))
            ++ (");")], [], [], []⟩ := by
    rw [extract_defs_single, nodeContrib_kind hs, hk]
    simp [functionDef, hn]
    rfl
  refine ⟨hmain, fun ha => ?_⟩
  rw [hmain]
  have h0 : String.intercalate (", ") ([] : List String) = ("") := rfl
  have h1 : orNone n.resultTypeSpelling ++ (" ") ++ n.spelling ++ ("(")
      ++ String.intercalate (", ") ([] : List String) ++ (");")
      = orNone n.resultTypeSpelling ++ (" ") ++ n.spelling ++ ("();") := by
    rw [h0]
    apply string_ext
    simp [String.data_append]
  simp only [ha, List.map_nil]
  rw [h1]

/-- Witness for C7 at concrete inputs: `int add(int a, int b);` and the
empty-parameter form `void reset();`. -/
theorem function_format_witness :
    extract_defs id ("h") [addFunction] =
      ⟨[], [orNone addFunction.resultTypeSpelling ++ (" ") ++ addFunction.spelling ++ ("(")
            ++ String.intercalate (", ")
                (addFunction.arguments.map
                  (fun p => orNone p.typeSpelling ++ (" ") ++ orNone p.spelling))
            ++ (");")], [], [], []⟩
    ∧ (extract_defs id ("h") [resetFunction]).functions
        = [orNone resetFunction.resultTypeSpelling ++ (" ")
            ++ resetFunction.spelling ++ ("();")] :=
  ⟨(function_format id ("h") addFunction rfl rfl (by decide)).1,
   (function_format id ("h") resetFunction rfl rfl (by decide)).2 rfl⟩

theorem typedefDef_len (n : Node) : (typedefDef n).length ≤ 1 := by
  unfold typedefDef
  dsimp only
  split <;> simp

theorem functionDef_len (n : Node) : (functionDef n).length ≤ 1 := by
  unfold functionDef
  dsimp only
  split <;> simp

theorem structDef_len (n : Node) : (structDef n).length ≤ 1 := by
  unfold structDef
  dsimp only
  split <;> simp

theorem enumDef_len (n : Node) : (enumDef n).length ≤ 1 := by
  unfold enumDef
  dsimp only
  split <;> simp

theorem macroDef_len (n : Node) : (macroDef n).length ≤ 1 := by
  unfold macroDef
  dsimp only
  split <;> simp

/-- Claim C10: each top-level node contributes at most one formatted string in
total, only to the sequence matching its kind, and a node of an unhandled kind
contributes nothing at all. -/
theorem kind_dispatch_unique :
    ∀ (ap : String → String) (hp : String) (n : Node),
      ((extract_defs ap hp [n]).typedefs.length + (extract_defs ap hp [n]).functions.length
        + (extract_defs ap hp [n]).structs.length + (extract_defs ap hp [n]).enums.length
        + (extract_defs ap hp [n]).macros.length ≤ 1)
      ∧ (n.kind = CursorKind.TYPEDEF_DECL →
          (extract_defs ap hp [n]).functions = [] ∧ (extract_defs ap hp [n]).structs = []
          ∧ (extract_defs ap hp [n]).enums = [] ∧ (extract_defs ap hp [n]).macros = [])
      ∧ (n.kind = CursorKind.FUNCTION_DECL →
          (extract_defs ap hp [n]).typedefs = [] ∧ (extract_defs ap hp [n]).structs = []
          ∧ (extract_defs ap hp [n]).enums = [] ∧ (extract_defs ap hp [n]).macros = [])
      ∧ (n.kind = CursorKind.STRUCT_DECL →
          (extract_defs ap hp [n]).typedefs = [] ∧ (extract_defs ap hp [n]).functions = []
          ∧ (extract_defs ap hp [n]).enums = [] ∧ (extract_defs ap hp [n]).macros = [])
      ∧ (n.kind = CursorKind.ENUM_DECL →
          (extract_defs ap hp [n]).typedefs = [] ∧ (extract_defs ap hp [n]).functions = []
          ∧ (extract_defs ap hp [n]).structs = [] ∧ (extract_defs ap hp [n]).macros = [])
      ∧ (n.kind = CursorKind.MACRO_DEFINITION →
          (extract_defs ap hp [n]).typedefs = [] ∧ (extract_defs ap hp [n]).functions = []
          ∧ (extract_defs ap hp [n]).structs = [] ∧ (extract_defs ap hp [n]).enums = [])
      ∧ (n.kind ≠ CursorKind.TYPEDEF_DECL → n.kind ≠ CursorKind.FUNCTION_DECL →
          n.kind ≠ CursorKind.STRUCT_DECL → n.kind ≠ CursorKind.ENUM_DECL →
          n.kind ≠ CursorKind.MACRO_DEFINITION →
          extract_defs ap hp [n] = ExtractOutput.empty) := by
  intro ap hp n
  rw [extract_defs_single]
  by_cases hs : fileSkip ap hp n = true
  · unfold nodeContrib
    rw [hs]
    simp [ExtractOutput.empty]
  · rw [nodeContrib_kind (by simpa using hs)]
    cases hk : n.kind <;>
      simp [hk, ExtractOutput.empty, typedefDef_len, functionDef_len, structDef_len,
        enumDef_len, macroDef_len]

/-- Witness for C10 at concrete inputs: a typedef node fills only the typedefs
sequence, and an unhandled-kind node contributes nothing. -/
theorem kind_dispatch_unique_witness :
    ((extract_defs id ("h") [sizeTypedef]).functions = []
      ∧ (extract_defs id ("h") [sizeTypedef]).structs = []
      ∧ (extract_defs id ("h") [sizeTypedef]).enums = []
      ∧ (extract_defs id ("h") [sizeTypedef]).macros = [])
    ∧ extract_defs id ("h") [unionNode] = ExtractOutput.empty :=
  ⟨(kind_dispatch_unique id ("h") sizeTypedef).2.1 rfl,
   (kind_dispatch_unique id ("h") unionNode).2.2.2.2.2.2
     (by decide) (by decide) (by decide) (by decide) (by decide)⟩

/-- Claim C9: each output sequence is the in-order concatenation of the
per-node contributions over the root's children (so declarations of the same
kind keep their relative order), and the assembled output fixes the cross-kind
order typedefs, functions, structs, enums, macros. -/
theorem order_preserved :
    (∀ (ap : String → String) (hp : String) (ns : List Node),
        extract_defs ap hp ns =
          ⟨(ns.map (fun n => (nodeContrib ap hp n).typedefs)).flatten,
           (ns.map (fun n => (nodeContrib ap hp n).functions)).flatten,
           (ns.map (fun n => (nodeContrib ap hp n).structs)).flatten,
           (ns.map (fun n => (nodeContrib ap hp n).enums)).flatten,
           (ns.map (fun n => (nodeContrib ap hp n).macros)).flatten⟩)
    ∧ (∀ o : ExtractOutput,
        renderOutput o = String.intercalate ("\n")
          ((("Typedefs:\n---") :: o.typedefs ++ [("---\n")])
            ++ (("Functions:\n---") :: o.functions ++ [("---\n")])
            ++ (("Structs:\n---") :: o.structs ++ [("---\n")])
            ++ (("Enums:\n---") :: o.enums ++ [("---\n")])
            ++ (("Macros:\n---") :: o.macros ++ [("---\n")]))) := by
  constructor
  · intro ap hp ns
    induction ns with
    | nil => rfl
    | cons x xs ih =>
      rw [extract_defs_cons, ih]
      simp [ExtractOutput.append]
  · intro o
    simp [renderOutput, sectionList]

/-- Claim C8: extraction is total: it always returns the five sequences, and
missing or empty spellings degrade to the literal `none` (or the empty macro
value) instead of failing. -/
theorem extract_total :
    ∀ (ap : String → String) (hp : String) (ns : List Node),
      (∃ t f s e m, extract_defs ap hp ns = ⟨t, f, s, e, m⟩)
      ∧ orNone ("") = ("none")
      ∧ (∀ s : String, s ≠ ("") → orNone s = s)
      ∧ macroValue [] = ("")
      ∧ (∀ t : String, macroValue [t] = (""))
      ∧ (∀ p : ChildNode, p.typeSpelling = ("") → p.spelling = ("") →
          paramStr p = ("none none")) := by
  intro ap hp ns
  refine ⟨⟨_, _, _, _, _, output_ext _⟩, rfl, ?_, rfl, ?_, ?_⟩
  · intro s h
    simp [orNone, h]
  · intro t
    rfl
  · intro p h1 h2
    simp [paramStr, h1, h2]
    decide

/-- Witness for C8 at concrete inputs. -/
theorem extract_total_witness :
    (∃ t f s e m, extract_defs id ("h") [sizeTypedef, addFunction] = ⟨t, f, s, e, m⟩)
    ∧ orNone ("int") = ("int")
    ∧ macroValue [("FLAG")] = ("")
    ∧ paramStr ⟨CursorKind.PARM_DECL, "", "", none⟩ = ("none none") :=
  ⟨(extract_total id ("h") [sizeTypedef, addFunction]).1,
   (extract_total id ("h") []).2.2.1 ("int") (by decide),
   (extract_total id ("h") []).2.2.2.2.1 ("FLAG"),
   (extract_total id ("h") []).2.2.2.2.2 ⟨CursorKind.PARM_DECL, "", "", none⟩ rfl rfl⟩

/-- Claim C5: a non-skipped ENUM node opens with `<name> {`, contains one line
per direct ENUM_CONSTANT child — `    <name> = <value>,` when the parser
supplies a value and `    <name>,` otherwise, with no value inference — and
the trailing comma and newline of the last entry are trimmed before the
closing `};`.  The last entry's visible text must not itself end in a comma
or newline (true of any identifier or integer). -/
theorem enum_format :
    ∀ (ap : String → String) (hp : String) (n : Node) (cs : List ChildNode)
      (c : ChildNode) (ch : Char) (rest : List Char),
      n.kind = CursorKind.ENUM_DECL → fileSkip ap hp n = false →
      pyStartsWith n.spelling ("_") = false →
      n.children.filter (fun d => d.kind == CursorKind.ENUM_CONSTANT_DECL) = cs ++ [c] →
      (enumCore c).data.reverse = ch :: rest → ¬ch = ',' → ¬ch = '\n' →
      extract_defs ap hp [n] =
        ⟨[], [], [],
         [n.spelling ++ (" \x7b\n") ++ String.join (cs.map enumLine) ++ enumCore c
           ++ ("\n\x7d;")], []⟩
      ∧ (∀ (d : ChildNode) (v : Int), d.enumValue = some v →
          enumLine d = ("    ") ++ d.spelling ++ (" = ") ++ toString v ++ (",\n"))
      ∧ (∀ d : ChildNode, d.enumValue = none →
          enumLine d = ("    ") ++ d.spelling ++ (",\n")) := by
  intro ap hp n cs c ch rest hk hs hn hcs hr h1 h2
  refine ⟨?_, ?_, ?_⟩
  · rw [extract_defs_single, nodeContrib_kind hs, hk]
    simp only [enumDef]
    rw [hcs, List.map_append, join_append]
    have hone : String.join (List.map enumLine [c]) = enumLine c := by
      apply string_ext
      simp [String.join_eq]
    rw [hone, enumLine_eq_core, hn]
    have hassoc : n.spelling ++ (" \x7b\n")
          ++ (String.join (cs.map enumLine) ++ (enumCore c ++ (",\n")))
        = (n.spelling ++ (" \x7b\n") ++ String.join (cs.map enumLine) ++ enumCore c)
          ++ (",\n") := by
      simp [String.append_assoc]
    simp only [Bool.not_false, if_true]
    rw [hassoc]
    have hsr : (n.spelling ++ (" \x7b\n") ++ String.join (cs.map enumLine)
          ++ enumCore c).data.reverse
        = ch :: (rest
            ++ (n.spelling ++ (" \x7b\n") ++ String.join (cs.map enumLine)).data.reverse) := by
      rw [String.data_append, List.reverse_append, hr]
      simp
    rw [pyRstrip_comma_nl _ ch _ hsr h1 h2]
  · intro d v hv
    simp [enumLine, hv]
  · intro d hd
    simp [enumLine, hd]

/-- Witness for C5 at a concrete input: the enum `Color` with `RED = 5`
followed by the unvalued `GREEN` emits `Color {\n    RED = 5,\n    GREEN\n};`
— no `= 6` is inferred and the last entry's comma and newline are trimmed. -/
theorem enum_format_witness :
    extract_defs id ("h") [colorEnum] =
      ⟨[], [], [],
       [colorEnum.spelling ++ (" \x7b\n") ++ String.join ([redConstant].map enumLine)
         ++ enumCore greenConstant ++ ("\n\x7d;")], []⟩
    ∧ extract_defs id ("h") [colorEnum] =
        ⟨[], [], [], [("Color \x7b\n    RED = 5,\n    GREEN\n\x7d;")], []⟩
    ∧ enumLine redConstant
        = ("    ") ++ redConstant.spelling ++ (" = ") ++ toString (5 : Int) ++ (",\n") := by
  have h := enum_format id ("h") colorEnum [redConstant] greenConstant 'N'
    [ 'E', 'E', 'R', 'G', ' ', ' ', ' ', ' ' ] rfl rfl (by decide) (by decide)
    (by decide) (by decide) (by decide)
  exact ⟨h.1, h.1.trans (by decide), h.2.1 redConstant 5 rfl⟩

/-- Claim C2 counterexample: a macro node whose cursor spelling `A` differs
from its first token's spelling `B` is emitted as `#define A 1` — the name
comes from the node's spelling, not from the first token as the claim says. -/
theorem macro_name_cex :
    macroMismatch.tokens.head? = some ("B")
    ∧ (extract_defs id ("h") [macroMismatch]).macros = [("#define A 1")]
    ∧ ¬(extract_defs id ("h") [macroMismatch]).macros
        = [("#define ") ++ ("B") ++ (" ") ++ ("1")] := by decide

/-- Claim C2 as amended: for a non-skipped MACRO node the emitted string is
`#define <name> <value>` with surrounding whitespace stripped, where the name
is the NODE'S SPELLING (not the first token), and the value is the spellings
of all tokens after the first joined by single spaces — empty when there is at
most one token, so the trailing space is trimmed in that case. -/
theorem macro_format :
    ∀ (ap : String → String) (hp : String) (n : Node),
      n.kind = CursorKind.MACRO_DEFINITION → fileSkip ap hp n = false →
      pyStartsWith n.spelling ("_") = false →
      extract_defs ap hp [n] =
        ⟨[], [], [], [],
         [pyStrip (("#define ") ++ n.spelling ++ (" ") ++ macroValue n.tokens)]⟩
      ∧ (n.tokens.length ≤ 1 → macroValue n.tokens = (""))
      ∧ (∀ (t : String) (ts : List String), n.tokens = t :: ts → ts ≠ [] →
          macroValue n.tokens = String.intercalate (" ") ts) := by
  intro ap hp n hk hs hn
  refine ⟨?_, ?_, ?_⟩
  · rw [extract_defs_single, nodeContrib_kind hs, hk]
    simp [macroDef, hn]
  · intro hlen
    unfold macroValue
    have h : ¬n.tokens.length > 1 := by omega
    simp [h]
  · intro t ts hts hne
    unfold macroValue
    rw [hts]
    have hlen : (t :: ts).length > 1 := by
      have h := List.length_pos.2 hne
      simp only [List.length_cons]
      omega
    simp [hlen, hne]

/-- Witness for C2's amended claim at concrete inputs: `#define MAX 100` and
the single-token macro `#define FLAG` with no trailing space. -/
theorem macro_format_witness :
    extract_defs id ("h") [maxMacroNode] = ⟨[], [], [], [], [("#define MAX 100")]⟩
    ∧ extract_defs id ("h") [flagMacroNode] = ⟨[], [], [], [], [("#define FLAG")]⟩
    ∧ macroValue flagMacroNode.tokens = ("")
    ∧ macroValue maxMacroNode.tokens = String.intercalate (" ") [("100")] :=
  ⟨((macro_format id ("h") maxMacroNode rfl rfl (by decide)).1).trans (by decide),
   ((macro_format id ("h") flagMacroNode rfl rfl (by decide)).1).trans (by decide),
   (macro_format id ("h") flagMacroNode rfl rfl (by decide)).2.1 (by decide),
   (macro_format id ("h") maxMacroNode rfl rfl (by decide)).2.2
     ("MAX") [("100")] rfl (by decide)⟩

/-- Claim C1 counterexample: a typedef node whose primary name is the empty
string is NOT excluded from the output — it is emitted as `typedef int ;`
with the empty string in the name position, so removing the node changes the
output. -/
theorem empty_name_cex :
    emptyNameTypedef.spelling = ("")
    ∧ (extract_defs id ("h") [emptyNameTypedef]).typedefs = [("typedef int ;")]
    ∧ ¬extract_defs id ("h") [emptyNameTypedef] = extract_defs id ("h") [] := by
  decide

/-- Claim C1 as amended: the name filter is purely the leading-underscore
test, so a node whose primary name is the empty string passes it and is
emitted with the empty string in the name position (shown for a typedef:
`typedef <underlying> ;`), rather than being excluded or given a placeholder
name. -/
theorem empty_name_amended :
    ∀ (ap : String → String) (hp : String) (n : Node),
      n.spelling = ("") →
      pyStartsWith n.spelling ("_") = false
      ∧ (n.kind = CursorKind.TYPEDEF_DECL → fileSkip ap hp n = false →
          pyStartsWith n.underlyingTypedefTypeSpelling ("struct ") = false →
          extract_defs ap hp [n] =
            ⟨[("typedef ") ++ orNone n.underlyingTypedefTypeSpelling ++ (" ")
                ++ n.spelling ++ (";")], [], [], [], []⟩
          ∧ extract_defs ap hp [n] ≠ ExtractOutput.empty) := by
  intro ap hp n hsp
  have hn : pyStartsWith n.spelling ("_") = false := by
    rw [hsp]
    decide
  refine ⟨hn, fun hk hs ht => ?_⟩
  have h := typedef_contrib hk hs hn ht
  refine ⟨h, ?_⟩
  rw [h]
  simp [ExtractOutput.empty]

/-- Witness for C1's amended claim at a concrete input: the empty-named
typedef passes the filter and is emitted. -/
theorem empty_name_amended_witness :
    pyStartsWith emptyNameTypedef.spelling ("_") = false
    ∧ extract_defs id ("h") [emptyNameTypedef] =
        ⟨[("typedef ") ++ orNone emptyNameTypedef.underlyingTypedefTypeSpelling ++ (" ")
            ++ emptyNameTypedef.spelling ++ (";")], [], [], [], []⟩ := by
  have h := empty_name_amended id ("h") emptyNameTypedef rfl
  exact ⟨h.1, (h.2 rfl rfl (by decide)).1⟩

end HeaderParser
